import Mathlib

/-!
Shallow embedding of `src/ads2coa/ads2coa.py` (the AIRA Institute NSF COA
generator).  Python strings are modelled as `String`; the character-level
splitting logic of `COA._permute_date` is modelled on `List Char` (the list of
code points of the Python string).  Worksheet cells are modelled as a total
function from (row, column) to a cell record carrying the openpyxl attributes
that the program reads and writes; named tables are a map from table name to
table record.  Fallible operations (Python exceptions) are modelled with
`Option` / `Except String`.
-/

namespace Ads2coa

/-! ### Constants of ads2coa.py -/

def TABLE4_START_ROW : Nat := 52

def TABLE4_TEMPLATE_PERSON : String := "Alphaman, Lin"

def NUMBER_OF_EXISTING_ROWS_IN_TABLE4 : Nat := 5

/-! ### `COA._permute_date`

Python `date_str.split("/")` on the list of code points: `n` separators give
`n + 1` parts.  `date[1]`, `date[2]`, `date[0]` are then interpolated; Python
raises `IndexError` when the split has fewer than three parts, modelled as
`none`. -/

def splitSlash : List Char → List (List Char)
  | [] => [[]]
  | c :: rest =>
    if c = '/' then [] :: splitSlash rest
    else
      match splitSlash rest with
      | [] => [[c]]
      | p :: ps => (c :: p) :: ps

/-- `COA._permute_date` on the code-point list: split on `/`, return
`date[1] / date[2] / date[0]`, `none` for the Python `IndexError` when fewer
than three parts result. -/
def permuteDateL (cs : List Char) : Option (List Char) :=
  match splitSlash cs with
  | d0 :: d1 :: d2 :: _ => some (d1 ++ '/' :: (d2 ++ '/' :: d0))
  | _ => none

/-- `COA._permute_date` at the `String` level. -/
def permute_date (s : String) : Option String :=
  (permuteDateL s.toList).map List.asString

/-- A component produced by splitting on `/` contains no `/`. -/
def slashFree (cs : List Char) : Prop := '/' ∉ cs

instance (cs : List Char) : Decidable (slashFree cs) := by
  unfold slashFree; infer_instance

theorem splitSlash_ne_nil (cs : List Char) : splitSlash cs ≠ [] := by
  induction cs with
  | nil => simp [splitSlash]
  | cons c rest ih =>
    by_cases h : c = '/'
    · simp [splitSlash, h]
    · simp only [splitSlash, h, if_false]
      cases hs : splitSlash rest with
      | nil => simp
      | cons p ps => simp

theorem splitSlash_slashFree (a : List Char) (ha : slashFree a) :
    splitSlash a = [a] := by
  induction a with
  | nil => rfl
  | cons c rest ih =>
    have hc : c ≠ '/' := by
      intro h; exact ha (h ▸ List.mem_cons_self c rest)
    have hrest : slashFree rest := fun h => ha (List.mem_cons_of_mem c h)
    simp only [splitSlash, hc, if_false, ih hrest]

theorem splitSlash_append (a rest : List Char) (ha : slashFree a) :
    splitSlash (a ++ '/' :: rest) = a :: splitSlash rest := by
  induction a with
  | nil => simp [splitSlash]
  | cons c tl ih =>
    have hc : c ≠ '/' := by
      intro h; exact ha (h ▸ List.mem_cons_self c tl)
    have htl : slashFree tl := fun h => ha (List.mem_cons_of_mem c h)
    simp only [List.cons_append, splitSlash, hc, if_false]
    rw [show tl.append ('/' :: rest) = tl ++ '/' :: rest from rfl, ih htl]

theorem splitSlash_length (cs : List Char) :
    (splitSlash cs).length = cs.count '/' + 1 := by
  induction cs with
  | nil => simp [splitSlash]
  | cons c rest ih =>
    by_cases h : c = '/'
    · subst h
      simp [splitSlash, List.count_cons, ih]
    · simp only [splitSlash, h, if_false]
      cases hs : splitSlash rest with
      | nil => exact absurd hs (splitSlash_ne_nil rest)
      | cons p ps =>
        rw [hs] at ih
        simp only [List.length_cons] at ih
        simp [List.count_cons, h, ih]

/-- Any code-point list with at least one `/` decomposes as a slash-free
prefix, the first `/`, and the remainder. -/
theorem exists_first_slash (cs : List Char) (h : 0 < cs.count '/') :
    ∃ a rest, slashFree a ∧ cs = a ++ '/' :: rest ∧
      rest.count '/' = cs.count '/' - 1 := by
  induction cs with
  | nil => simp at h
  | cons c tl ih =>
    by_cases hc : c = '/'
    · subst hc
      exact ⟨[], tl, by simp [slashFree], by simp, by simp [List.count_cons]⟩
    · have htl : 0 < tl.count '/' := by
        simpa [List.count_cons, hc] using h
      obtain ⟨a, rest, hfree, heq, hcnt⟩ := ih htl
      refine ⟨c :: a, rest, ?_, by simp [heq], ?_⟩
      · intro hm
        rcases List.mem_cons.mp hm with h1 | h1
        · exact hc h1.symm
        · exact hfree h1
      · simpa [List.count_cons, hc] using hcnt

/-- Any code-point list with exactly two `/` separators is
`a ++ "/" ++ b ++ "/" ++ c` with slash-free components. -/
theorem two_slash_decomp (cs : List Char) (h : cs.count '/' = 2) :
    ∃ a b c, slashFree a ∧ slashFree b ∧ slashFree c ∧
      cs = a ++ '/' :: (b ++ '/' :: c) := by
  obtain ⟨a, rest, ha, heq, hcnt⟩ := exists_first_slash cs (by omega)
  rw [h] at hcnt
  obtain ⟨b, c, hb, heq2, hcnt2⟩ := exists_first_slash rest (by omega)
  rw [hcnt] at hcnt2
  have hc : slashFree c := by
    unfold slashFree
    rw [← List.count_eq_zero (a := '/')]
    omega
  exact ⟨a, b, c, ha, hb, hc, by rw [heq, heq2]⟩

theorem permuteDateL_components (a b c : List Char)
    (ha : slashFree a) (hb : slashFree b) (hc : slashFree c) :
    permuteDateL (a ++ '/' :: (b ++ '/' :: c)) =
      some (b ++ '/' :: (c ++ '/' :: a)) := by
  unfold permuteDateL
  rw [splitSlash_append a _ ha, splitSlash_append b _ hb,
    splitSlash_slashFree c hc]

theorem count_slash_three_components (a b c : List Char)
    (ha : slashFree a) (hb : slashFree b) (hc : slashFree c) :
    (a ++ '/' :: (b ++ '/' :: c)).count '/' = 2 := by
  have ha0 : a.count '/' = 0 := List.count_eq_zero.mpr ha
  have hb0 : b.count '/' = 0 := List.count_eq_zero.mpr hb
  have hc0 : c.count '/' = 0 := List.count_eq_zero.mpr hc
  simp [List.count_append, List.count_cons, ha0, hb0, hc0]

/-- The inverse transform named by the specification: move the last
`/`-separated component back to the front.  On the two-separator domain the
split has exactly three components `e0 :: e1 :: [e2]` and the result is
`e2 / e0 / e1`. -/
def unpermuteDateL (cs : List Char) : Option (List Char) :=
  match splitSlash cs with
  | e0 :: e1 :: e2 :: _ => some (e2 ++ '/' :: (e0 ++ '/' :: e1))
  | _ => none

/-- C5: on code-point lists with exactly two `/` separators, `_permute_date`
is a bijection of that domain onto itself: it always succeeds, its output is
again in the domain, moving the last `/`-separated component back to the
front recovers the input exactly, and every element of the domain is hit
(with the same inverse transform witnessing injectivity and surjectivity). -/
theorem permute_date_bijection_on_two_slash :
    (∀ cs : List Char, cs.count '/' = 2 →
      ∃ t, permuteDateL cs = some t ∧ t.count '/' = 2 ∧
        unpermuteDateL t = some cs)
    ∧ (∀ t : List Char, t.count '/' = 2 →
      ∃ cs, cs.count '/' = 2 ∧ permuteDateL cs = some t ∧
        unpermuteDateL t = some cs) := by
  constructor
  · intro cs h
    obtain ⟨a, b, c, ha, hb, hc, rfl⟩ := two_slash_decomp cs h
    refine ⟨b ++ '/' :: (c ++ '/' :: a), permuteDateL_components a b c ha hb hc,
      count_slash_three_components b c a hb hc ha, ?_⟩
    unfold unpermuteDateL
    rw [splitSlash_append b _ hb, splitSlash_append c _ hc,
      splitSlash_slashFree a ha]
  · intro t h
    obtain ⟨e0, e1, e2, h0, h1, h2, rfl⟩ := two_slash_decomp t h
    refine ⟨e2 ++ '/' :: (e0 ++ '/' :: e1),
      count_slash_three_components e2 e0 e1 h2 h0 h1,
      permuteDateL_components e2 e0 e1 h2 h0 h1, ?_⟩
    unfold unpermuteDateL
    rw [splitSlash_append e0 _ h0, splitSlash_append e1 _ h1,
      splitSlash_slashFree e2 h2]

/-- Witness for `permute_date_bijection_on_two_slash` at the concrete input
`"2022/06/01"`. -/
theorem permute_date_bijection_on_two_slash_witness :
    ∃ t, permuteDateL ("2022/06/01".toList) = some t ∧ t.count '/' = 2 ∧
      unpermuteDateL t = some ("2022/06/01".toList) :=
  permute_date_bijection_on_two_slash.1 "2022/06/01".toList (by decide)

/-- C6: `_permute_date` on any string of the form `A/B/C` (three
`/`-separated components, i.e. the components themselves contain no `/`)
returns `B/C/A`.  The components are arbitrary strings: the function is a
pure split-and-reorder on `/` and performs no calendar validation of year,
month or day values. -/
theorem permute_date_reorders_components (y m d : String)
    (hy : slashFree y.toList) (hm : slashFree m.toList)
    (hd : slashFree d.toList) :
    permute_date (y ++ "/" ++ m ++ "/" ++ d) = some (m ++ "/" ++ d ++ "/" ++ y) := by
  have hsplit : (y ++ "/" ++ m ++ "/" ++ d).toList =
      y.toList ++ '/' :: (m.toList ++ '/' :: d.toList) := by
    simp [String.toList, String.data_append]
  unfold permute_date
  rw [hsplit, permuteDateL_components _ _ _ hy hm hd]
  simp only [Option.map_some']
  exact congrArg some (List.asString_eq.mpr (by
    simp [String.toList, String.data_append]))

/-- Witness for `permute_date_reorders_components`: a "month" of 77 and a
"day" of 99 are happily reordered. -/
theorem permute_date_reorders_components_witness :
    permute_date ("2022" ++ "/" ++ "77" ++ "/" ++ "99") =
      some ("77" ++ "/" ++ "99" ++ "/" ++ "2022") :=
  permute_date_reorders_components "2022" "77" "99"
    (by decide) (by decide) (by decide)

/-- C8 (amended): `_permute_date` succeeds exactly on the strings with at
least two `/` separators (such inputs, however garbled, propagate to an
output); on strings with fewer than two `/` separators the index accesses
`date[1]` / `date[2]` raise `IndexError`, modelled as `none`. -/
theorem permute_date_total_iff_two_separators :
    (∀ cs : List Char, 2 ≤ cs.count '/' → (permuteDateL cs).isSome)
    ∧ (∀ cs : List Char, cs.count '/' < 2 → permuteDateL cs = none) := by
  constructor
  · intro cs h
    have hlen : 3 ≤ (splitSlash cs).length := by
      rw [splitSlash_length]; omega
    unfold permuteDateL
    rcases hs : splitSlash cs with _ | ⟨d0, _ | ⟨d1, _ | ⟨d2, rest⟩⟩⟩ <;>
      simp_all
  · intro cs h
    have hlen : (splitSlash cs).length < 3 := by
      rw [splitSlash_length]; omega
    unfold permuteDateL
    rcases hs : splitSlash cs with _ | ⟨d0, _ | ⟨d1, _ | ⟨d2, rest⟩⟩⟩ <;>
      simp_all
    omega

/-- Counterexample to C8 as stated: the malformed date `"2022-06-01"` (no
`/` separators) does not propagate as garbled output; the code raises
`IndexError` (modelled as `none`). -/
theorem permute_date_raises_on_malformed :
    permute_date "2022-06-01" = none := by decide

/-- Witness for `permute_date_total_iff_two_separators`: a string with two
separators succeeds, a string with none fails. -/
theorem permute_date_total_iff_two_separators_witness :
    (permuteDateL ("9999/77/88xx".toList)).isSome
    ∧ permuteDateL ("20220601".toList) = none :=
  ⟨permute_date_total_iff_two_separators.1 _ (by decide),
   permute_date_total_iff_two_separators.2 _ (by decide)⟩

/-- C10: on a string with more than two `/` separators, splitting yields
components `c0 :: c1 :: c2 :: ...` and `_permute_date` returns `c1/c2/c0`,
silently discarding everything after the third component; hence two distinct
inputs can map to the same output and the function is not injective outside
the two-separator domain. -/
theorem permute_date_discards_extra_components :
    (∀ a b c d : List Char, slashFree a → slashFree b → slashFree c →
      permuteDateL (a ++ '/' :: (b ++ '/' :: (c ++ '/' :: d))) =
        some (b ++ '/' :: (c ++ '/' :: a)))
    ∧ permuteDateL "2020/01/02/x".toList = permuteDateL "2020/01/02/y".toList
    ∧ "2020/01/02/x".toList ≠ "2020/01/02/y".toList := by
  refine ⟨?_, by decide, by decide⟩
  intro a b c d ha hb hc
  unfold permuteDateL
  rw [splitSlash_append a _ ha, splitSlash_append b _ hb,
    splitSlash_append c _ hc]

/-- Witness for `permute_date_discards_extra_components`: the trailing
`/junk` component disappears from the output. -/
theorem permute_date_discards_extra_components_witness :
    permuteDateL ("2020".toList ++ '/' :: ("01".toList ++ '/' ::
        ("02".toList ++ '/' :: "junk".toList))) =
      some ("01".toList ++ '/' :: ("02".toList ++ '/' :: "2020".toList)) :=
  permute_date_discards_extra_components.1 "2020".toList "01".toList
    "02".toList "junk".toList (by decide) (by decide) (by decide)

/-! ### Worksheet model

A cell carries the openpyxl attributes the program reads or writes
(`value`, `font`, `alignment`, `border`, `fill`, `number_format`) plus one
attribute (`protection`) that `copy_range` does **not** copy, so that the
copying of the listed attributes is observable.  The style attributes are
opaque tokens (`Nat`).  `Cells` maps (row, column) to a cell, rows and the
columns A..E being numbered from 1 as in openpyxl. -/

structure Cell where
  value : Option String := none
  font : Nat := 0
  alignment : Nat := 0
  border : Nat := 0
  fill : Nat := 0
  numberFormat : Nat := 0
  protection : Nat := 0
deriving DecidableEq, Repr

def defaultCell : Cell := {}

/-- An openpyxl worksheet table: `Table(displayName=…, name=…, ref=…)`. -/
structure Table where
  displayName : String
  name : String
  ref : String
deriving DecidableEq, Repr

def Cells := Nat → Nat → Cell

/-- `sheet.tables`, keyed by table name as in openpyxl. -/
def Tables := String → Option Table

structure Sheet where
  cells : Cells
  tables : Tables

/-- A workbook: `sheetnames` plus the `"NSF COA Template"` sheet (the only
sheet the program touches; it is dereferenced only after check 1 has
established that it is the first sheet). -/
structure Workbook where
  sheetnames : List String
  sheet : Sheet

/-- `sheet[cell].offset(...)` assignment of value plus the five copied style
attributes: destination keeps its other attributes (e.g. protection). -/
def mergeStyles (dst src : Cell) : Cell :=
  { dst with
    value := src.value
    font := src.font
    alignment := src.alignment
    border := src.border
    fill := src.fill
    numberFormat := src.numberFormat }

/-- One iteration of the `copy_range` loop body at source coordinate `p`:
the destination cell `p.1 + offset, p.2` receives the current source cell's
value and the five style attributes. -/
def copyCellStep (cs : Cells) (offset : Nat) (p : Nat × Nat) : Cells :=
  fun r c =>
    if r = p.1 + offset ∧ c = p.2 then mergeStyles (cs r c) (cs p.1 p.2)
    else cs r c

/-- The cell coordinates produced by `rows_from_range` for a range spanning
rows `rlo..rhi` and columns `clo..chi`, row by row in increasing order. -/
def rangeCoords (rlo rhi clo chi : Nat) : List (Nat × Nat) :=
  ((List.range (rhi + 1 - rlo)).map (fun i => rlo + i)).flatMap
    (fun r => (List.range (chi + 1 - clo)).map (fun j => (r, clo + j)))

/-- `copy_range(range_str, sheet, offset)` where `range_str` denotes the
rectangle with rows `rlo..rhi` and columns `clo..chi` (so `"A52:E52"` is
`rlo = rhi = 52`, `clo = 1`, `chi = 5`). -/
def copy_range (rlo rhi clo chi : Nat) (cs : Cells) (offset : Nat) : Cells :=
  (rangeCoords rlo rhi clo chi).foldl (fun acc p => copyCellStep acc offset p) cs

theorem mem_rangeCoords (rlo rhi clo chi : Nat) (p : Nat × Nat) :
    p ∈ rangeCoords rlo rhi clo chi ↔
      rlo ≤ p.1 ∧ p.1 ≤ rhi ∧ clo ≤ p.2 ∧ p.2 ≤ chi := by
  obtain ⟨pr, pc⟩ := p
  simp only [rangeCoords, List.mem_flatMap, List.mem_map, List.mem_range]
  constructor
  · rintro ⟨r, ⟨i, hi, rfl⟩, j, hj, h⟩
    obtain ⟨rfl, rfl⟩ := Prod.mk.injEq .. ▸ h
    have h1 := (Prod.mk.injEq ..).mp h
    omega
  · rintro ⟨h1, h2, h3, h4⟩
    exact ⟨pr, ⟨pr - rlo, by omega, by omega⟩, pc - clo, by omega, by
      rw [Prod.mk.injEq]; omega⟩

/-- Cells outside the destination region of a fold of copy steps are left
unchanged. -/
theorem foldl_copyCellStep_frame (offset : Nat) (ps : List (Nat × Nat))
    (cs : Cells) (r c : Nat)
    (h : ∀ p ∈ ps, ¬ (r = p.1 + offset ∧ c = p.2)) :
    (ps.foldl (fun acc p => copyCellStep acc offset p) cs) r c = cs r c := by
  induction ps generalizing cs with
  | nil => rfl
  | cons a tl ih =>
    rw [List.foldl_cons, ih _ (fun p hp => h p (List.mem_cons_of_mem a hp))]
    unfold copyCellStep
    rw [if_neg (h a (List.mem_cons_self a tl))]

theorem mergeStyles_mergeStyles (d s1 s2 : Cell) :
    mergeStyles (mergeStyles d s1) s2 = mergeStyles d s2 := rfl

/-- When no source cell of the list is also a destination cell, every
destination cell of the fold receives the original source cell's value and
the five copied style attributes. -/
theorem foldl_copyCellStep_value (offset : Nat) (ps : List (Nat × Nat))
    (cs : Cells)
    (h : ∀ p ∈ ps, ∀ q ∈ ps, ¬ (p.1 = q.1 + offset ∧ p.2 = q.2)) :
    ∀ p ∈ ps, (ps.foldl (fun acc p => copyCellStep acc offset p) cs)
        (p.1 + offset) p.2 = mergeStyles (cs (p.1 + offset) p.2) (cs p.1 p.2) := by
  induction ps generalizing cs with
  | nil => intro p hp; simp at hp
  | cons a tl ih =>
    intro p hp
    rw [List.foldl_cons]
    have htl : ∀ p ∈ tl, ∀ q ∈ tl, ¬ (p.1 = q.1 + offset ∧ p.2 = q.2) :=
      fun p hp q hq => h p (List.mem_cons_of_mem a hp) q (List.mem_cons_of_mem a hq)
    rcases List.mem_cons.mp hp with rfl | hptl
    · by_cases hmem : p ∈ tl
      · rw [ih (copyCellStep cs offset p) htl p hmem]
        have hsrc : copyCellStep cs offset p p.1 p.2 = cs p.1 p.2 := by
          unfold copyCellStep
          rw [if_neg (h p hp p hp)]
        rw [hsrc]
        unfold copyCellStep
        by_cases hd : p.1 + offset = p.1 + offset ∧ p.2 = p.2
        · rw [if_pos hd, mergeStyles_mergeStyles]
        · rw [if_neg hd]
      · have hframe : ∀ q ∈ tl, ¬ (p.1 + offset = q.1 + offset ∧ p.2 = q.2) := by
          intro q hq hcontra
          obtain ⟨h1, h2⟩ := hcontra
          have : p = q := Prod.ext (by omega) h2
          exact hmem (this ▸ hq)
        rw [foldl_copyCellStep_frame offset tl _ _ _ hframe]
        unfold copyCellStep
        rw [if_pos ⟨rfl, rfl⟩]
    · rw [ih (copyCellStep cs offset a) htl p hptl]
      have hsrc : copyCellStep cs offset a p.1 p.2 = cs p.1 p.2 := by
        unfold copyCellStep
        rw [if_neg (h p hp a (List.mem_cons_self a tl))]
      rw [hsrc]
      unfold copyCellStep
      by_cases hd : p.1 + offset = a.1 + offset ∧ p.2 = a.2
      · rw [if_pos hd, mergeStyles_mergeStyles]
      · rw [if_neg hd]

/-- C9 (amended): `copy_range` never modifies a cell outside the destination
region (the source rectangle shifted down by `offset`, same columns), and —
provided the destination region is disjoint from the source region, i.e.
`rhi < rlo + offset`, which holds at every call site of the program — each
destination cell receives the original source cell's value together with its
font, alignment, border, fill and number format (its other attributes are
kept). -/
theorem copy_range_frame_and_values (rlo rhi clo chi offset : Nat) (cs : Cells) :
    (∀ r c : Nat, ¬ (rlo + offset ≤ r ∧ r ≤ rhi + offset ∧ clo ≤ c ∧ c ≤ chi) →
      copy_range rlo rhi clo chi cs offset r c = cs r c)
    ∧ (rhi < rlo + offset →
      ∀ r c : Nat, rlo ≤ r → r ≤ rhi → clo ≤ c → c ≤ chi →
        copy_range rlo rhi clo chi cs offset (r + offset) c =
          mergeStyles (cs (r + offset) c) (cs r c)) := by
  constructor
  · intro r c hout
    apply foldl_copyCellStep_frame
    intro p hp hcontra
    obtain ⟨h1, h2⟩ := hcontra
    rw [mem_rangeCoords] at hp
    exact hout (by omega)
  · intro hno r c h1 h2 h3 h4
    have hmem : ((r, c) : Nat × Nat) ∈ rangeCoords rlo rhi clo chi :=
      (mem_rangeCoords rlo rhi clo chi (r, c)).mpr ⟨h1, h2, h3, h4⟩
    refine foldl_copyCellStep_value offset _ cs ?_ (r, c) hmem
    intro p hp q hq hcontra
    rw [mem_rangeCoords] at hp hq
    omega

/-- A concrete sheet used for the `copy_range` counterexample and witness. -/
def copyDemoCells : Cells := fun r c =>
  if r = 1 ∧ c = 1 then { defaultCell with value := some "v1" }
  else if r = 2 ∧ c = 1 then { defaultCell with value := some "v2" }
  else defaultCell

/-- Counterexample to C9 as stated: with range `"A1:A2"` and offset 1 the
source and destination regions overlap; the loop runs top to bottom, so the
destination cell A3 receives the value propagated from A1 rather than A2's
original value — the claim that every destination cell receives its source
cell's value fails at this input. -/
theorem copy_range_overlap_propagates :
    (copy_range 1 2 1 1 copyDemoCells 1 3 1).value = some "v1"
    ∧ (copyDemoCells 2 1).value = some "v2"
    ∧ (copy_range 1 2 1 1 copyDemoCells 1 3 1).value ≠ (copyDemoCells 2 1).value := by
  decide

/-- Witness for `copy_range_frame_and_values` at a concrete non-overlapping
call (range `"A10:E10"`, offset 7): a cell outside the destination region is
unchanged, and a destination cell receives the source attributes. -/
theorem copy_range_frame_and_values_witness :
    copy_range 10 10 1 5 copyDemoCells 7 1 1 = copyDemoCells 1 1
    ∧ copy_range 10 10 1 5 copyDemoCells 7 (10 + 7) 3 =
        mergeStyles (copyDemoCells (10 + 7) 3) (copyDemoCells 10 3) :=
  ⟨(copy_range_frame_and_values 10 10 1 5 7 copyDemoCells).1 1 1 (by omega),
   (copy_range_frame_and_values 10 10 1 5 7 copyDemoCells).2 (by omega) 10 3
     (by omega) (by omega) (by omega) (by omega)⟩

/-! ### The expansion pipeline `COA.add_author_affiliations` -/

/-- One row of the author-affiliations CSV. -/
structure Record where
  author : String
  affil : String
  date : String
deriving DecidableEq, Repr

/-- `sheet.cell(row=…, column=…).value = v` / `sheet["B52"] = v`: assign the
cell's value, leaving every style attribute in place. -/
def setCellValue (cs : Cells) (r0 c0 : Nat) (v : Option String) : Cells :=
  fun r c => if r = r0 ∧ c = c0 then { cs r c with value := v } else cs r c

/-- The first loop of `add_author_affiliations`: empty the values of the
first two rows of table 4 (rows 52 and 53, columns 1..5). -/
def clearFirstTwoRows (cs : Cells) : Cells :=
  (List.range 2).foldl
    (fun acc i =>
      (List.range 5).foldl
        (fun acc2 j => setCellValue acc2 (TABLE4_START_ROW + i) (j + 1) none)
        acc)
    cs

/-- `sheet.insert_rows(idx, amount)`: rows at index `idx` and below move down
by `amount`; the freed rows are blank (default style, no value). -/
def insert_rows (cs : Cells) (idx amount : Nat) : Cells :=
  fun r c =>
    if r < idx then cs r c
    else if r < idx + amount then defaultCell
    else cs (r - amount) c

/-- The body of the `for i, row in self.df.iterrows()` loop: write the five
fixed columns of row `52 + i`.  The date permutation for column E raises
`IndexError` on a date with fewer than three `/`-separated components,
modelled as `none`. -/
def writeRecordRow (cs : Cells) (i : Nat) (rec : Record) : Option Cells :=
  match permute_date rec.date with
  | none => none
  | some d =>
    some (setCellValue (setCellValue (setCellValue (setCellValue (setCellValue
      cs (TABLE4_START_ROW + i) 1 (some "A:"))
      (TABLE4_START_ROW + i) 2 (some rec.author))
      (TABLE4_START_ROW + i) 3 (some rec.affil))
      (TABLE4_START_ROW + i) 4 (some ""))
      (TABLE4_START_ROW + i) 5 (some d))

/-- The `iterrows` loop from dataframe index `i` on. -/
def writeRecordsFrom (cs : Cells) (i : Nat) : List Record → Option Cells
  | [] => some cs
  | rec :: rest =>
    match writeRecordRow cs i rec with
    | none => none
    | some cs2 => writeRecordsFrom cs2 (i + 1) rest

def writeRecords (cs : Cells) (records : List Record) : Option Cells :=
  writeRecordsFrom cs 0 records

/-- The cell-level preparation of `add_author_affiliations`, in source order
(innermost first): clear the first two table rows, copy the closing row
`A57:E57` down by `num_to_add + 5 + 1`, insert `num_to_add` blank rows at row
54 (`TABLE4_START_ROW + 2`), then copy the first data row `A52:E52` into each
of the `num_to_add` following rows.  `num_to_add` is `len(records) - 5`; the
claims are stated for `len(records) ≥ 5`, where truncated `Nat` subtraction
agrees with Python. -/
def preparedCells (cs : Cells) (records : List Record) : Cells :=
  (List.range (records.length - NUMBER_OF_EXISTING_ROWS_IN_TABLE4)).foldl
    (fun acc i => copy_range TABLE4_START_ROW TABLE4_START_ROW 1 5 acc (1 + i))
    (insert_rows
      (copy_range (TABLE4_START_ROW + 5) (TABLE4_START_ROW + 5) 1 5
        (clearFirstTwoRows cs)
        ((records.length - NUMBER_OF_EXISTING_ROWS_IN_TABLE4) +
          NUMBER_OF_EXISTING_ROWS_IN_TABLE4 + 1))
      (TABLE4_START_ROW + 2)
      (records.length - NUMBER_OF_EXISTING_ROWS_IN_TABLE4))

/-- The complete cell-level part of `add_author_affiliations`: preparation
followed by the record-writing loop. -/
def expandCells (cs : Cells) (records : List Record) : Option Cells :=
  writeRecords (preparedCells cs records) records

/-- `del sheet.tables[k]` (the caller checks for `KeyError` separately). -/
def tablesDelete (ts : Tables) (k : String) : Tables :=
  fun k2 => if k2 = k then none else ts k2

/-- `sheet.add_table(tab)`: registered under the table's name. -/
def tablesAdd (ts : Tables) (t : Table) : Tables :=
  fun k2 => if k2 = t.name then some t else ts k2

/-- The `f"A{r1}:E{r2}"` range strings built for the re-added tables. -/
def refString (r1 r2 : Nat) : String :=
  "A" ++ toString r1 ++ ":E" ++ toString r2

/-- `COA.add_author_affiliations`: expand the cells, then delete and re-add
`TableD5` and `TableD` with recomputed range strings, taking `displayName`
and `name` from the pristine second workbook (`wb_alt`, whose tables are
passed as `altTables`).  A `KeyError` (missing table) or the `IndexError`
from a malformed date aborts with an error. -/
def add_author_affiliations (sheet : Sheet) (altTables : Tables)
    (records : List Record) : Except String Sheet :=
  let numToAdd := records.length - NUMBER_OF_EXISTING_ROWS_IN_TABLE4
  match expandCells sheet.cells records with
  | none => Except.error "IndexError: list index out of range"
  | some cs5 =>
    match sheet.tables "TableD5" with
    | none => Except.error "KeyError: TableD5"
    | some _ =>
      let ts1 := tablesDelete sheet.tables "TableD5"
      match altTables "TableD5" with
      | none => Except.error "KeyError: TableD5"
      | some newD5 =>
        let ts2 := tablesAdd ts1
          { displayName := newD5.displayName
            name := newD5.name
            ref := refString (58 + numToAdd + NUMBER_OF_EXISTING_ROWS_IN_TABLE4)
              (68 + numToAdd + NUMBER_OF_EXISTING_ROWS_IN_TABLE4) }
        match ts2 "TableD" with
        | none => Except.error "KeyError: TableD"
        | some _ =>
          let ts3 := tablesDelete ts2 "TableD"
          match altTables "TableD" with
          | none => Except.error "KeyError: TableD"
          | some newD =>
            let ts4 := tablesAdd ts3
              { displayName := newD.displayName
                name := newD.name
                ref := refString (TABLE4_START_ROW - 1)
                  (TABLE4_START_ROW + numToAdd + NUMBER_OF_EXISTING_ROWS_IN_TABLE4 - 1) }
            Except.ok { cells := cs5, tables := ts4 }

/-- `COA._check_is_template`, in source order: first sheet name, placeholder
person in B52, stored range of `TableD`.  A missing first sheet or missing
`TableD` raises the corresponding Python builtin error. -/
def check_is_template (wb : Workbook) : Except String Unit :=
  match wb.sheetnames with
  | [] => Except.error "IndexError: list index out of range"
  | s0 :: _ =>
    if s0 ≠ "NSF COA Template" then
      Except.error "The first sheet of the workbook is not the NSF COA template"
    else if (wb.sheet.cells TABLE4_START_ROW 2).value ≠ some TABLE4_TEMPLATE_PERSON then
      Except.error "The first row of the table 4 is not the template person"
    else
      match wb.sheet.tables "TableD" with
      | none => Except.error "KeyError: TableD"
      | some t =>
        if t.ref ≠ "A51:E56" then
          Except.error "The table 4 is not in the correct location"
        else Except.ok ()

/-- The saved output file: name plus workbook contents. -/
structure SavedOutput where
  filename : String
  workbook : Workbook

/-- The `COA.__init__` run on an already-loaded workbook and parsed records:
validate the template shape, expand (with `wb_alt` a second pristine load of
the same template file, so `altTables` is the template's own table map), and
save.  An error at any stage aborts the run: no output is produced and the
input workbook value is untouched. -/
def runCOA (wb : Workbook) (records : List Record) (outFilename : String) :
    Except String SavedOutput :=
  match check_is_template wb with
  | Except.error m => Except.error m
  | Except.ok _ =>
    match add_author_affiliations wb.sheet wb.sheet.tables records with
    | Except.error m => Except.error m
    | Except.ok sheet2 =>
      Except.ok { filename := outFilename, workbook := { wb with sheet := sheet2 } }

/-! ### Lemmas about the record-writing loop -/

theorem setCellValue_frame (cs : Cells) (r0 c0 : Nat) (v : Option String)
    (r c : Nat) (h : ¬ (r = r0 ∧ c = c0)) : setCellValue cs r0 c0 v r c = cs r c := by
  unfold setCellValue
  rw [if_neg h]

theorem writeRecordRow_values (cs : Cells) (i : Nat) (rec : Record) (cs1 : Cells)
    (h : writeRecordRow cs i rec = some cs1) :
    (cs1 (TABLE4_START_ROW + i) 1).value = some "A:"
    ∧ (cs1 (TABLE4_START_ROW + i) 2).value = some rec.author
    ∧ (cs1 (TABLE4_START_ROW + i) 3).value = some rec.affil
    ∧ (cs1 (TABLE4_START_ROW + i) 4).value = some ""
    ∧ (cs1 (TABLE4_START_ROW + i) 5).value = permute_date rec.date := by
  unfold writeRecordRow at h
  cases hd : permute_date rec.date with
  | none => rw [hd] at h; cases h
  | some d =>
    rw [hd] at h
    injection h with h
    subst h
    refine ⟨?_, ?_, ?_, ?_, ?_⟩ <;> simp [setCellValue]

theorem writeRecordRow_frame (cs : Cells) (i : Nat) (rec : Record) (cs1 : Cells)
    (h : writeRecordRow cs i rec = some cs1) (r c : Nat)
    (hrc : r ≠ TABLE4_START_ROW + i ∨ 5 < c ∨ c = 0) :
    cs1 r c = cs r c := by
  unfold writeRecordRow at h
  cases hd : permute_date rec.date with
  | none => rw [hd] at h; cases h
  | some d =>
    rw [hd] at h
    injection h with h
    subst h
    simp only [setCellValue]
    iterate 5 rw [if_neg (by omega)]

theorem writeRecordsFrom_isSome (l : List Record) :
    ∀ (cs : Cells) (k : Nat), (∀ rec ∈ l, (permute_date rec.date).isSome) →
      ∃ cs2, writeRecordsFrom cs k l = some cs2 := by
  induction l with
  | nil => intro cs k _; exact ⟨cs, rfl⟩
  | cons rec rest ih =>
    intro cs k h
    obtain ⟨d, hd⟩ := Option.isSome_iff_exists.mp (h rec (List.mem_cons_self rec rest))
    have h1 : ∃ cs1, writeRecordRow cs k rec = some cs1 := by
      unfold writeRecordRow
      rw [hd]
      exact ⟨_, rfl⟩
    obtain ⟨cs1, h1⟩ := h1
    obtain ⟨cs2, h2⟩ := ih cs1 (k + 1)
      (fun r hr => h r (List.mem_cons_of_mem rec hr))
    refine ⟨cs2, ?_⟩
    unfold writeRecordsFrom
    rw [h1]
    exact h2

theorem writeRecordsFrom_frame (l : List Record) :
    ∀ (cs cs2 : Cells) (k : Nat), writeRecordsFrom cs k l = some cs2 →
      ∀ r c : Nat, r < TABLE4_START_ROW + k ∨ 5 < c ∨ c = 0 → cs2 r c = cs r c := by
  induction l with
  | nil =>
    intro cs cs2 k h r c _
    unfold writeRecordsFrom at h
    injection h with h
    rw [h]
  | cons rec rest ih =>
    intro cs cs2 k h r c hrc
    unfold writeRecordsFrom at h
    cases h1 : writeRecordRow cs k rec with
    | none => rw [h1] at h; cases h
    | some cs1 =>
      rw [h1] at h
      rw [ih cs1 cs2 (k + 1) h r c (by omega)]
      exact writeRecordRow_frame cs k rec cs1 h1 r c (by omega)

theorem writeRecordsFrom_values (l : List Record) :
    ∀ (cs cs2 : Cells) (k : Nat), writeRecordsFrom cs k l = some cs2 →
      ∀ (i : Nat) (hi : i < l.length),
        (cs2 (TABLE4_START_ROW + (k + i)) 1).value = some "A:"
        ∧ (cs2 (TABLE4_START_ROW + (k + i)) 2).value = some (l.get ⟨i, hi⟩).author
        ∧ (cs2 (TABLE4_START_ROW + (k + i)) 3).value = some (l.get ⟨i, hi⟩).affil
        ∧ (cs2 (TABLE4_START_ROW + (k + i)) 4).value = some ""
        ∧ (cs2 (TABLE4_START_ROW + (k + i)) 5).value = permute_date (l.get ⟨i, hi⟩).date := by
  induction l with
  | nil => intro _ _ _ _ i hi; exact absurd hi (by simp)
  | cons rec rest ih =>
    intro cs cs2 k h i hi
    unfold writeRecordsFrom at h
    cases h1 : writeRecordRow cs k rec with
    | none => rw [h1] at h; cases h
    | some cs1 =>
      rw [h1] at h
      cases i with
      | zero =>
        have hvals := writeRecordRow_values cs k rec cs1 h1
        have hfr : ∀ c0 : Nat, cs2 (TABLE4_START_ROW + k) c0 =
            cs1 (TABLE4_START_ROW + k) c0 :=
          fun c0 => writeRecordsFrom_frame rest cs1 cs2 (k + 1) h _ c0 (by omega)
        simp only [Nat.add_zero]
        rw [hfr 1, hfr 2, hfr 3, hfr 4, hfr 5]
        simpa using hvals
      | succ j =>
        have hj : j < rest.length := by
          simp only [List.length_cons] at hi
          omega
        have hrec := ih cs1 cs2 (k + 1) h j hj
        have hidx : TABLE4_START_ROW + (k + (j + 1)) =
            TABLE4_START_ROW + ((k + 1) + j) := by omega
        rw [hidx,
          show (rec :: rest).get ⟨j + 1, hi⟩ = rest.get ⟨j, hj⟩ from rfl]
        exact hrec

/-! ### Lemmas about the template check -/

theorem check_is_template_ok_inv (wb : Workbook)
    (h : check_is_template wb = Except.ok ()) :
    wb.sheetnames.head? = some "NSF COA Template"
    ∧ (wb.sheet.cells TABLE4_START_ROW 2).value = some TABLE4_TEMPLATE_PERSON
    ∧ ∃ t, wb.sheet.tables "TableD" = some t ∧ t.ref = "A51:E56" := by
  unfold check_is_template at h
  split at h
  · cases h
  · rename_i s0 tl heq
    split at h
    · cases h
    · rename_i h1
      push_neg at h1
      split at h
      · cases h
      · rename_i h2
        push_neg at h2
        split at h
        · cases h
        · rename_i t ht
          split at h
          · cases h
          · rename_i h3
            push_neg at h3
            exact ⟨by rw [heq, List.head?_cons, h1], h2, t, ht, h3⟩

theorem check_is_template_ok_of (wb : Workbook)
    (h1 : wb.sheetnames.head? = some "NSF COA Template")
    (h2 : (wb.sheet.cells TABLE4_START_ROW 2).value = some TABLE4_TEMPLATE_PERSON)
    (t : Table) (ht : wb.sheet.tables "TableD" = some t)
    (href : t.ref = "A51:E56") :
    check_is_template wb = Except.ok () := by
  unfold check_is_template
  split
  · rename_i heq
    rw [heq] at h1
    cases h1
  · rename_i s0 tl heq
    rw [heq, List.head?_cons] at h1
    injection h1 with h1
    rw [if_neg (by simp [h1]), if_neg (by simp [h2]), ht]
    simp [href]

/-! ### Frame lemmas for the preparation stages (columns beyond E) -/

theorem clearFirstTwoRows_frame (cs : Cells) (r c : Nat) (hc : 5 < c) :
    clearFirstTwoRows cs r c = cs r c := by
  unfold clearFirstTwoRows
  rw [show List.range 2 = [0, 1] from rfl, show List.range 5 = [0, 1, 2, 3, 4] from rfl]
  simp only [List.foldl_cons, List.foldl_nil]
  simp only [setCellValue]
  iterate 10 rw [if_neg (by omega)]

theorem copyFold_frame (n : Nat) (cs : Cells) (r c : Nat) (hc : 5 < c) :
    ((List.range n).foldl
      (fun acc i => copy_range TABLE4_START_ROW TABLE4_START_ROW 1 5 acc (1 + i))
      cs) r c = cs r c := by
  induction n with
  | zero => rfl
  | succ m ih =>
    rw [List.range_succ, List.foldl_append, List.foldl_cons, List.foldl_nil]
    rw [(copy_range_frame_and_values TABLE4_START_ROW TABLE4_START_ROW 1 5 (1 + m) _).1
      r c (by omega)]
    exact ih

/-- On columns beyond E the preparation is exactly the row insertion applied
to the original cells: the clearing, the footer-row copy and the style copies
all live in columns A..E. -/
theorem preparedCells_high_cols (cs : Cells) (records : List Record) (r c : Nat)
    (hc : 5 < c) :
    preparedCells cs records r c =
      insert_rows cs (TABLE4_START_ROW + 2)
        (records.length - NUMBER_OF_EXISTING_ROWS_IN_TABLE4) r c := by
  unfold preparedCells
  rw [copyFold_frame _ _ r c hc]
  unfold insert_rows
  by_cases hr1 : r < TABLE4_START_ROW + 2
  · rw [if_pos hr1, if_pos hr1,
      (copy_range_frame_and_values (TABLE4_START_ROW + 5) (TABLE4_START_ROW + 5) 1 5 _ _).1
        r c (by omega),
      clearFirstTwoRows_frame cs r c hc]
  · rw [if_neg hr1, if_neg hr1]
    by_cases hr2 : r < TABLE4_START_ROW + 2 +
        (records.length - NUMBER_OF_EXISTING_ROWS_IN_TABLE4)
    · rw [if_pos hr2, if_pos hr2]
    · rw [if_neg hr2, if_neg hr2,
        (copy_range_frame_and_values (TABLE4_START_ROW + 5) (TABLE4_START_ROW + 5) 1 5 _ _).1
          _ c (by omega),
        clearFirstTwoRows_frame cs _ c hc]

/-! ### Inversion of a successful run -/

theorem add_author_affiliations_ok_inv (sheet : Sheet) (altTables : Tables)
    (records : List Record) (sheet2 : Sheet)
    (h : add_author_affiliations sheet altTables records = Except.ok sheet2) :
    ∃ cs5, expandCells sheet.cells records = some cs5 ∧ sheet2.cells = cs5 := by
  unfold add_author_affiliations at h
  split at h
  · cases h
  · rename_i cs5 hexp
    refine ⟨cs5, hexp, ?_⟩
    have hne : ("TableD" : String) ≠ "TableD5" := by decide
    simp only [tablesAdd, tablesDelete, hne] at h
    repeat' split at h
    all_goals try cases h
    all_goals rfl

theorem runCOA_ok_inv (wb : Workbook) (records : List Record) (out : String)
    (sv : SavedOutput) (h : runCOA wb records out = Except.ok sv) :
    check_is_template wb = Except.ok ()
    ∧ sv.workbook.sheetnames = wb.sheetnames
    ∧ ∃ cs5, expandCells wb.sheet.cells records = some cs5
        ∧ sv.workbook.sheet.cells = cs5 := by
  unfold runCOA at h
  split at h
  · cases h
  · rename_i u hchk
    split at h
    · cases h
    · rename_i sheet2 hadd
      injection h with h
      obtain ⟨cs5, hexp, hcells⟩ :=
        add_author_affiliations_ok_inv wb.sheet wb.sheet.tables records sheet2 hadd
      cases u
      exact ⟨hchk, by rw [← h], cs5, hexp, by rw [← h]; exact hcells⟩

/-! ### The individual template-check failure modes -/

theorem check_fails_sheetname (wb : Workbook) (hne : wb.sheetnames ≠ [])
    (h1 : wb.sheetnames.head? ≠ some "NSF COA Template") :
    check_is_template wb =
      Except.error "The first sheet of the workbook is not the NSF COA template" := by
  unfold check_is_template
  split
  · rename_i heq
    exact absurd heq hne
  · rename_i s0 tl heq
    rw [heq, List.head?_cons] at h1
    rw [if_pos (fun hs0 => h1 (by rw [hs0]))]

theorem check_fails_person (wb : Workbook)
    (h1 : wb.sheetnames.head? = some "NSF COA Template")
    (h2 : (wb.sheet.cells TABLE4_START_ROW 2).value ≠ some TABLE4_TEMPLATE_PERSON) :
    check_is_template wb =
      Except.error "The first row of the table 4 is not the template person" := by
  unfold check_is_template
  split
  · rename_i heq
    rw [heq] at h1
    cases h1
  · rename_i s0 tl heq
    rw [heq, List.head?_cons] at h1
    injection h1 with h1
    rw [if_neg (by simp [h1]), if_pos h2]

theorem check_fails_tableref (wb : Workbook)
    (h1 : wb.sheetnames.head? = some "NSF COA Template")
    (h2 : (wb.sheet.cells TABLE4_START_ROW 2).value = some TABLE4_TEMPLATE_PERSON)
    (t : Table) (ht : wb.sheet.tables "TableD" = some t)
    (h3 : t.ref ≠ "A51:E56") :
    check_is_template wb =
      Except.error "The table 4 is not in the correct location" := by
  unfold check_is_template
  split
  · rename_i heq
    rw [heq] at h1
    cases h1
  · rename_i s0 tl heq
    rw [heq, List.head?_cons] at h1
    injection h1 with h1
    rw [if_neg (by simp [h1]), if_neg (by simp [h2]), ht]
    simp [h3]

theorem check_fails_missing_table (wb : Workbook)
    (h1 : wb.sheetnames.head? = some "NSF COA Template")
    (h2 : (wb.sheet.cells TABLE4_START_ROW 2).value = some TABLE4_TEMPLATE_PERSON)
    (ht : wb.sheet.tables "TableD" = none) :
    check_is_template wb = Except.error "KeyError: TableD" := by
  unfold check_is_template
  split
  · rename_i heq
    rw [heq] at h1
    cases h1
  · rename_i s0 tl heq
    rw [heq, List.head?_cons] at h1
    injection h1 with h1
    rw [if_neg (by simp [h1]), if_neg (by simp [h2]), ht]

theorem runCOA_error_of_check (wb : Workbook) (records : List Record)
    (out : String) (m : String) (h : check_is_template wb = Except.error m) :
    runCOA wb records out = Except.error m := by
  unfold runCOA
  rw [h]

theorem tablesAdd_lookup (ts : Tables) (t : Table) (k : String) :
    tablesAdd ts t k = if k = t.name then some t else ts k := by
  simp only [tablesAdd]

theorem tablesDelete_lookup (ts : Tables) (k0 k : String) :
    tablesDelete ts k0 k = if k = k0 then none else ts k := by
  simp only [tablesDelete]

/-- A successful run, with the saved output made explicit: the template
checks pass, the cells are expanded, and the two tables are deleted and
re-added with the recomputed range strings (the `wb_alt` lookups hit the same
pristine template tables). -/
theorem runCOA_ok (wb : Workbook) (records : List Record) (out : String)
    (h1 : wb.sheetnames.head? = some "NSF COA Template")
    (h2 : (wb.sheet.cells TABLE4_START_ROW 2).value = some TABLE4_TEMPLATE_PERSON)
    (tD : Table) (hD : wb.sheet.tables "TableD" = some tD)
    (hDref : tD.ref = "A51:E56")
    (t5 : Table) (hD5 : wb.sheet.tables "TableD5" = some t5)
    (cs5 : Cells) (hexp : expandCells wb.sheet.cells records = some cs5) :
    runCOA wb records out = Except.ok
      { filename := out
        workbook :=
        { sheetnames := wb.sheetnames
          sheet :=
          { cells := cs5
            tables := tablesAdd (tablesDelete (tablesAdd
                (tablesDelete wb.sheet.tables "TableD5")
                { displayName := t5.displayName
                  name := t5.name
                  ref := refString
                    (58 + (records.length - NUMBER_OF_EXISTING_ROWS_IN_TABLE4) +
                      NUMBER_OF_EXISTING_ROWS_IN_TABLE4)
                    (68 + (records.length - NUMBER_OF_EXISTING_ROWS_IN_TABLE4) +
                      NUMBER_OF_EXISTING_ROWS_IN_TABLE4) }) "TableD")
              { displayName := tD.displayName
                name := tD.name
                ref := refString (TABLE4_START_ROW - 1)
                  (TABLE4_START_ROW + (records.length - NUMBER_OF_EXISTING_ROWS_IN_TABLE4) +
                    NUMBER_OF_EXISTING_ROWS_IN_TABLE4 - 1) } } } } := by
  unfold runCOA add_author_affiliations
  rw [check_is_template_ok_of wb h1 h2 tD hD hDref, hexp, hD5]
  by_cases hn : ("TableD" : String) = t5.name
  · simp only [tablesAdd, tablesDelete, if_pos hn, hD]
  · have hne : ("TableD" : String) ≠ "TableD5" := by decide
    simp only [tablesAdd, tablesDelete, if_neg hn, if_neg hne, hD]

/-- C2: for a valid template and `L ≥ 5` records with well-formed dates, the
run succeeds; the re-added `TableD` spans rows 51 (header) through `51 + L`,
i.e. exactly `L` data rows 52..`51 + L`; and for every `i < L` row `52 + i`
holds the marker `"A:"` in column A, record `i`'s author in column B, its
affiliation in column C, the empty string in column D and its date
reformatted by `_permute_date` (`YYYY/MM/DD` to `MM/DD/YYYY`) in column E. -/
theorem expansion_fills_all_rows (wb : Workbook) (records : List Record)
    (out : String)
    (h5 : 5 ≤ records.length)
    (hdates : ∀ rec ∈ records, (permute_date rec.date).isSome)
    (h1 : wb.sheetnames.head? = some "NSF COA Template")
    (h2 : (wb.sheet.cells TABLE4_START_ROW 2).value = some TABLE4_TEMPLATE_PERSON)
    (tD : Table) (hD : wb.sheet.tables "TableD" = some tD)
    (hDref : tD.ref = "A51:E56") (htDname : tD.name = "TableD")
    (t5 : Table) (hD5 : wb.sheet.tables "TableD5" = some t5) :
    ∃ sv, runCOA wb records out = Except.ok sv
      ∧ (∃ t, sv.workbook.sheet.tables "TableD" = some t
          ∧ t.ref = refString 51 (51 + records.length))
      ∧ ∀ (i : Nat) (hi : i < records.length),
          (sv.workbook.sheet.cells (TABLE4_START_ROW + i) 1).value = some "A:"
          ∧ (sv.workbook.sheet.cells (TABLE4_START_ROW + i) 2).value =
              some (records.get ⟨i, hi⟩).author
          ∧ (sv.workbook.sheet.cells (TABLE4_START_ROW + i) 3).value =
              some (records.get ⟨i, hi⟩).affil
          ∧ (sv.workbook.sheet.cells (TABLE4_START_ROW + i) 4).value = some ""
          ∧ (sv.workbook.sheet.cells (TABLE4_START_ROW + i) 5).value =
              permute_date (records.get ⟨i, hi⟩).date := by
  obtain ⟨cs5, hw⟩ :=
    writeRecordsFrom_isSome records (preparedCells wb.sheet.cells records) 0 hdates
  have hexp : expandCells wb.sheet.cells records = some cs5 := hw
  refine ⟨_, runCOA_ok wb records out h1 h2 tD hD hDref t5 hD5 cs5 hexp, ?_, ?_⟩
  · have e2 : TABLE4_START_ROW + (records.length - NUMBER_OF_EXISTING_ROWS_IN_TABLE4) +
        NUMBER_OF_EXISTING_ROWS_IN_TABLE4 - 1 = 51 + records.length := by
      have hT : TABLE4_START_ROW = 52 := rfl
      have hN : NUMBER_OF_EXISTING_ROWS_IN_TABLE4 = 5 := rfl
      omega
    refine ⟨{ displayName := tD.displayName
              name := tD.name
              ref := refString 51 (51 + records.length) }, ?_, rfl⟩
    show tablesAdd _ _ "TableD" = some _
    rw [tablesAdd_lookup, htDname, if_pos rfl,
      show (TABLE4_START_ROW - 1 : Nat) = 51 from rfl, e2]
  · intro i hi
    have hvals := writeRecordsFrom_values records _ cs5 0 hw i hi
    simpa using hvals

/-- C3 (amended): for a valid template with `L ≥ 5` records and well-formed
dates, both named tables are deleted and re-added; `TableD5` is re-added
with range `A{63+(L-5)}:E{73+(L-5)}` — both boundaries shifted by exactly
`L - 5` rows from the vendor template's `A63:E73` position — while `TableD`
is re-added with range `A51:E{56+(L-5)}`: its top boundary stays at the
template's row 51 and only its bottom boundary moves down by `L - 5`. -/
theorem tables_relocated (wb : Workbook) (records : List Record) (out : String)
    (h5 : 5 ≤ records.length)
    (hdates : ∀ rec ∈ records, (permute_date rec.date).isSome)
    (h1 : wb.sheetnames.head? = some "NSF COA Template")
    (h2 : (wb.sheet.cells TABLE4_START_ROW 2).value = some TABLE4_TEMPLATE_PERSON)
    (tD : Table) (hD : wb.sheet.tables "TableD" = some tD)
    (hDref : tD.ref = "A51:E56") (htDname : tD.name = "TableD")
    (t5 : Table) (hD5 : wb.sheet.tables "TableD5" = some t5)
    (ht5name : t5.name = "TableD5") :
    ∃ sv, runCOA wb records out = Except.ok sv
      ∧ sv.workbook.sheet.tables "TableD5" = some
          { displayName := t5.displayName
            name := t5.name
            ref := refString (63 + (records.length - 5)) (73 + (records.length - 5)) }
      ∧ sv.workbook.sheet.tables "TableD" = some
          { displayName := tD.displayName
            name := tD.name
            ref := refString 51 (51 + records.length) } := by
  obtain ⟨cs5, hw⟩ :=
    writeRecordsFrom_isSome records (preparedCells wb.sheet.cells records) 0 hdates
  have hexp : expandCells wb.sheet.cells records = some cs5 := hw
  have hT : TABLE4_START_ROW = 52 := rfl
  have hN : NUMBER_OF_EXISTING_ROWS_IN_TABLE4 = 5 := rfl
  refine ⟨_, runCOA_ok wb records out h1 h2 tD hD hDref t5 hD5 cs5 hexp, ?_, ?_⟩
  · have hnotD : ("TableD5" : String) ≠ "TableD" := by decide
    have hn1 : ("TableD5" : String) ≠ tD.name := by
      rw [htDname]
      exact hnotD
    have e1 : 58 + (records.length - NUMBER_OF_EXISTING_ROWS_IN_TABLE4) +
        NUMBER_OF_EXISTING_ROWS_IN_TABLE4 = 63 + (records.length - 5) := by omega
    have e2 : 68 + (records.length - NUMBER_OF_EXISTING_ROWS_IN_TABLE4) +
        NUMBER_OF_EXISTING_ROWS_IN_TABLE4 = 73 + (records.length - 5) := by omega
    show tablesAdd _ _ "TableD5" = some _
    rw [tablesAdd_lookup, htDname, if_neg hnotD, tablesDelete_lookup,
      if_neg hnotD, tablesAdd_lookup, ht5name, if_pos rfl, e1, e2]
  · have e2 : TABLE4_START_ROW + (records.length - NUMBER_OF_EXISTING_ROWS_IN_TABLE4) +
        NUMBER_OF_EXISTING_ROWS_IN_TABLE4 - 1 = 51 + records.length := by omega
    show tablesAdd _ _ "TableD" = some _
    rw [tablesAdd_lookup, htDname, if_pos rfl,
      show (TABLE4_START_ROW - 1 : Nat) = 51 from rfl, e2]

/-- C4 (amended): for `L ≥ 5` records, the expansion physically inserts
exactly `toAdd = L - 5` blank rows starting at row 54 (`TABLE4_START_ROW+2`,
two rows after the first data row 52, not at the second data row 53), as
observed on every column beyond E, which none of the value/style writes
touch: rows below 54 stay in place, rows 54..`53+(L-5)` are blank, and every
other row is the template row `L - 5` higher up. -/
theorem rows_inserted_at_row54 (wb : Workbook) (records : List Record)
    (out : String) (sv : SavedOutput)
    (h5 : 5 ≤ records.length)
    (hrun : runCOA wb records out = Except.ok sv) :
    ∀ r c : Nat, 5 < c →
      (r < 54 → sv.workbook.sheet.cells r c = wb.sheet.cells r c)
      ∧ (54 ≤ r → r < 54 + (records.length - 5) →
          sv.workbook.sheet.cells r c = defaultCell)
      ∧ (54 + (records.length - 5) ≤ r →
          sv.workbook.sheet.cells r c =
            wb.sheet.cells (r - (records.length - 5)) c) := by
  obtain ⟨hchk, hnames, cs5, hexp, hcells⟩ := runCOA_ok_inv wb records out sv hrun
  intro r c hc
  have hT : TABLE4_START_ROW = 52 := rfl
  have hN : NUMBER_OF_EXISTING_ROWS_IN_TABLE4 = 5 := rfl
  have hfr : cs5 r c = preparedCells wb.sheet.cells records r c :=
    writeRecordsFrom_frame records _ cs5 0 hexp r c (Or.inr (Or.inl hc))
  have hprep := preparedCells_high_cols wb.sheet.cells records r c hc
  rw [hcells, hfr, hprep]
  unfold insert_rows
  refine ⟨?_, ?_, ?_⟩
  · intro h
    rw [if_pos (by omega)]
  · intro ha hb
    rw [if_neg (by omega), if_pos (by omega)]
  · intro h
    rw [if_neg (by omega), if_neg (by omega), hN]

/-- C7: a second pass over the expander's own output (produced from `L ≥ 5`
records whose first author is not the template placeholder person) fails
template validation at check 2 — B52 now holds the first record's author —
so a repeated run aborts with that check's error and never re-expands. -/
theorem double_run_fails_check (wb : Workbook) (records : List Record)
    (out : String) (sv : SavedOutput)
    (h5 : 5 ≤ records.length)
    (hrun : runCOA wb records out = Except.ok sv)
    (hfirst : ∀ rec, records.head? = some rec →
      rec.author ≠ TABLE4_TEMPLATE_PERSON) :
    check_is_template sv.workbook =
      Except.error "The first row of the table 4 is not the template person"
    ∧ ∀ (records2 : List Record) (out2 : String),
        runCOA sv.workbook records2 out2 =
          Except.error "The first row of the table 4 is not the template person" := by
  obtain ⟨hchk, hnames, cs5, hexp, hcells⟩ := runCOA_ok_inv wb records out sv hrun
  obtain ⟨h1, h2, t, ht, href⟩ := check_is_template_ok_inv wb hchk
  have hlen0 : 0 < records.length := by omega
  have hvals := writeRecordsFrom_values records _ cs5 0 hexp 0 hlen0
  have hhead : records.head? = some (records.get ⟨0, hlen0⟩) := by
    cases records with
    | nil => simp at hlen0
    | cons a l => rfl
  have hne := hfirst _ hhead
  have hB52 : (sv.workbook.sheet.cells TABLE4_START_ROW 2).value ≠
      some TABLE4_TEMPLATE_PERSON := by
    rw [hcells]
    have hcol2 := hvals.2.1
    simp only [Nat.add_zero, Nat.zero_add] at hcol2
    rw [hcol2]
    exact fun hcon => hne (Option.some.inj hcon)
  have hhd : sv.workbook.sheetnames.head? = some "NSF COA Template" := by
    rw [hnames]
    exact h1
  have hfail := check_fails_person sv.workbook hhd hB52
  exact ⟨hfail, fun records2 out2 => runCOA_error_of_check _ _ _ _ hfail⟩

/-- C1: whenever any of the three template-shape checks fails, the run
aborts with an error naming the failed check (`ValueError` messages for the
three checks; a `KeyError` naming `TableD` when the table is missing
altogether): the result is `Except.error`, so no expansion is performed and
no output is produced. -/
theorem template_check_failure_aborts (wb : Workbook) (records : List Record)
    (out : String)
    (hne : wb.sheetnames ≠ [])
    (hfail : wb.sheetnames.head? ≠ some "NSF COA Template"
      ∨ (wb.sheet.cells TABLE4_START_ROW 2).value ≠ some TABLE4_TEMPLATE_PERSON
      ∨ ¬ ∃ t, wb.sheet.tables "TableD" = some t ∧ t.ref = "A51:E56") :
    ∃ msg, runCOA wb records out = Except.error msg
      ∧ (wb.sheetnames.head? ≠ some "NSF COA Template" →
          msg = "The first sheet of the workbook is not the NSF COA template")
      ∧ (wb.sheetnames.head? = some "NSF COA Template" →
         (wb.sheet.cells TABLE4_START_ROW 2).value ≠ some TABLE4_TEMPLATE_PERSON →
          msg = "The first row of the table 4 is not the template person")
      ∧ (wb.sheetnames.head? = some "NSF COA Template" →
         (wb.sheet.cells TABLE4_START_ROW 2).value = some TABLE4_TEMPLATE_PERSON →
          (∀ t, wb.sheet.tables "TableD" = some t →
            msg = "The table 4 is not in the correct location")
          ∧ (wb.sheet.tables "TableD" = none → msg = "KeyError: TableD")) := by
  by_cases hc1 : wb.sheetnames.head? = some "NSF COA Template"
  · by_cases hc2 : (wb.sheet.cells TABLE4_START_ROW 2).value = some TABLE4_TEMPLATE_PERSON
    · have h3 : ¬ ∃ t, wb.sheet.tables "TableD" = some t ∧ t.ref = "A51:E56" := by
        rcases hfail with h | h | h
        · exact absurd hc1 h
        · exact absurd hc2 h
        · exact h
      cases ht : wb.sheet.tables "TableD" with
      | none =>
        refine ⟨"KeyError: TableD",
          runCOA_error_of_check _ _ _ _ (check_fails_missing_table wb hc1 hc2 ht),
          fun hx => absurd hc1 hx, fun _ hx => absurd hc2 hx, fun _ _ => ?_⟩
        exact ⟨fun t htt => Option.noConfusion htt, fun _ => rfl⟩
      | some t =>
        have href : t.ref ≠ "A51:E56" := fun hr => h3 ⟨t, ht, hr⟩
        refine ⟨"The table 4 is not in the correct location",
          runCOA_error_of_check _ _ _ _ (check_fails_tableref wb hc1 hc2 t ht href),
          fun hx => absurd hc1 hx, fun _ hx => absurd hc2 hx, fun _ _ => ?_⟩
        exact ⟨fun t2 htt => rfl, fun hnone => Option.noConfusion hnone⟩
    · exact ⟨"The first row of the table 4 is not the template person",
        runCOA_error_of_check _ _ _ _ (check_fails_person wb hc1 hc2),
        fun hx => absurd hc1 hx, fun _ _ => rfl, fun _ h2x => absurd h2x hc2⟩
  · exact ⟨"The first sheet of the workbook is not the NSF COA template",
      runCOA_error_of_check _ _ _ _ (check_fails_sheetname wb hne hc1),
      fun _ => rfl, fun hx _ => absurd hx hc1, fun hx _ => absurd hx hc1⟩

/-! ### Concrete data for counterexamples and witnesses

A template workbook of the vendor's shape: first sheet `"NSF COA Template"`,
placeholder person in B52, `TableD` at `A51:E56` and `TableD5` at `A63:E73`.
Column F (column 6) carries a per-row marker value, which the expansion never
writes, so that physical row movement is observable. -/

def tmplCells : Cells := fun r c =>
  if r = 52 ∧ c = 2 then { defaultCell with value := some "Alphaman, Lin" }
  else if c = 6 then { defaultCell with value := some ("m" ++ toString r) }
  else defaultCell

def tmplTables : Tables := fun k =>
  if k = "TableD" then
    some { displayName := "TableD", name := "TableD", ref := "A51:E56" }
  else if k = "TableD5" then
    some { displayName := "TableD5", name := "TableD5", ref := "A63:E73" }
  else none

def wbT : Workbook :=
  { sheetnames := ["NSF COA Template"]
    sheet := { cells := tmplCells, tables := tmplTables } }

def recs8 : List Record :=
  [⟨"Doe, Jane", "Inst One", "2020/01/02"⟩,
   ⟨"Roe, Rik", "Inst Two", "2020/03/04"⟩,
   ⟨"Poe, Eda", "Inst Three", "2020/05/06"⟩,
   ⟨"Moe, Lou", "Inst Four", "2020/07/08"⟩,
   ⟨"Foe, Ann", "Inst Five", "2020/09/10"⟩,
   ⟨"Hoe, Ben", "Inst Six", "2020/11/12"⟩,
   ⟨"Joe, Cal", "Inst Seven", "2021/01/02"⟩,
   ⟨"Koe, Dee", "Inst Eight", "2021/03/04"⟩]

def recs6 : List Record := recs8.take 6

/-- Counterexample to C3 as stated: with the vendor-shaped template and
`L = 8` records (3 inserted rows), `TableD5` is indeed re-added at `A66:E76`
(both boundaries shifted by 3 from its template position `A63:E73`), but
`TableD` is re-added at `A51:E59`, not at `A54:E59`: its top boundary is the
template's row 51, unshifted, so it is false that both regions' boundaries
are shifted by exactly 3 rows from their template positions. -/
theorem tables_relocated_counterexample :
    (runCOA wbT recs8 "coa.xlsx").toOption.bind
        (fun sv => (sv.workbook.sheet.tables "TableD").map Table.ref) =
      some (refString 51 59)
    ∧ (runCOA wbT recs8 "coa.xlsx").toOption.bind
        (fun sv => (sv.workbook.sheet.tables "TableD5").map Table.ref) =
      some (refString 66 76)
    ∧ refString 51 59 ≠ refString (51 + 3) (56 + 3) := by decide

/-- The expansion's cell preparation as the C4 sentence describes it: the
same stages, but with the blank rows physically inserted starting at the
table's second data row, row 53 (`TABLE4_START_ROW + 1`), instead of the
source's `TABLE4_START_ROW + 2`.  Stated from the claim's words, for
comparison with `preparedCells`. -/
def preparedCellsInsertAtRow53 (cs : Cells) (records : List Record) : Cells :=
  (List.range (records.length - NUMBER_OF_EXISTING_ROWS_IN_TABLE4)).foldl
    (fun acc i => copy_range TABLE4_START_ROW TABLE4_START_ROW 1 5 acc (1 + i))
    (insert_rows
      (copy_range (TABLE4_START_ROW + 5) (TABLE4_START_ROW + 5) 1 5
        (clearFirstTwoRows cs)
        ((records.length - NUMBER_OF_EXISTING_ROWS_IN_TABLE4) +
          NUMBER_OF_EXISTING_ROWS_IN_TABLE4 + 1))
      (TABLE4_START_ROW + 1)
      (records.length - NUMBER_OF_EXISTING_ROWS_IN_TABLE4))

def expandCellsInsertAtRow53 (cs : Cells) (records : List Record) : Option Cells :=
  writeRecords (preparedCellsInsertAtRow53 cs records) records

/-- Counterexample to C4 as stated: on the concrete template (marker value
`"m53"` in cell F53, a column the expansion never writes) with 6 records
(one row to insert), the source expansion leaves F53's marker in place —
the physical insertion starts at row 54 — whereas the expansion the claim
describes, inserting at the second data row 53, leaves F53 blank. -/
theorem insert_row_position_counterexample :
    (expandCells tmplCells recs6).map (fun cs => (cs 53 6).value) =
      some (some ("m" ++ toString 53))
    ∧ (expandCellsInsertAtRow53 tmplCells recs6).map
        (fun cs => (cs 53 6).value) = some none
    ∧ some ("m" ++ toString 53) ≠ (none : Option String) := by decide

/-- A workbook whose first sheet has the wrong name, for the C1 witness. -/
def wbBadSheet : Workbook :=
  { sheetnames := ["Sheet1"]
    sheet := { cells := tmplCells, tables := tmplTables } }

/-- Witness for `template_check_failure_aborts` at a concrete workbook whose
first sheet is named `"Sheet1"`. -/
theorem template_check_failure_aborts_witness :
    ∃ msg, runCOA wbBadSheet [] "coa.xlsx" = Except.error msg
      ∧ (wbBadSheet.sheetnames.head? ≠ some "NSF COA Template" →
          msg = "The first sheet of the workbook is not the NSF COA template")
      ∧ (wbBadSheet.sheetnames.head? = some "NSF COA Template" →
         (wbBadSheet.sheet.cells TABLE4_START_ROW 2).value ≠ some TABLE4_TEMPLATE_PERSON →
          msg = "The first row of the table 4 is not the template person")
      ∧ (wbBadSheet.sheetnames.head? = some "NSF COA Template" →
         (wbBadSheet.sheet.cells TABLE4_START_ROW 2).value = some TABLE4_TEMPLATE_PERSON →
          (∀ t, wbBadSheet.sheet.tables "TableD" = some t →
            msg = "The table 4 is not in the correct location")
          ∧ (wbBadSheet.sheet.tables "TableD" = none → msg = "KeyError: TableD")) :=
  template_check_failure_aborts wbBadSheet [] "coa.xlsx" (by decide)
    (Or.inl (by decide))

/-- Witness for `expansion_fills_all_rows` at the concrete template with 8
records. -/
theorem expansion_fills_all_rows_witness :
    ∃ sv, runCOA wbT recs8 "coa.xlsx" = Except.ok sv
      ∧ (∃ t, sv.workbook.sheet.tables "TableD" = some t
          ∧ t.ref = refString 51 (51 + recs8.length))
      ∧ ∀ (i : Nat) (hi : i < recs8.length),
          (sv.workbook.sheet.cells (TABLE4_START_ROW + i) 1).value = some "A:"
          ∧ (sv.workbook.sheet.cells (TABLE4_START_ROW + i) 2).value =
              some (recs8.get ⟨i, hi⟩).author
          ∧ (sv.workbook.sheet.cells (TABLE4_START_ROW + i) 3).value =
              some (recs8.get ⟨i, hi⟩).affil
          ∧ (sv.workbook.sheet.cells (TABLE4_START_ROW + i) 4).value = some ""
          ∧ (sv.workbook.sheet.cells (TABLE4_START_ROW + i) 5).value =
              permute_date (recs8.get ⟨i, hi⟩).date :=
  expansion_fills_all_rows wbT recs8 "coa.xlsx" (by decide) (by decide)
    (by decide) (by decide)
    { displayName := "TableD", name := "TableD", ref := "A51:E56" }
    (by decide) (by decide) (by decide)
    { displayName := "TableD5", name := "TableD5", ref := "A63:E73" }
    (by decide)

/-- Witness for `tables_relocated` at the concrete template with 8 records. -/
theorem tables_relocated_witness :
    ∃ sv, runCOA wbT recs8 "coa.xlsx" = Except.ok sv
      ∧ sv.workbook.sheet.tables "TableD5" = some
          { displayName := "TableD5"
            name := "TableD5"
            ref := refString (63 + (recs8.length - 5)) (73 + (recs8.length - 5)) }
      ∧ sv.workbook.sheet.tables "TableD" = some
          { displayName := "TableD"
            name := "TableD"
            ref := refString 51 (51 + recs8.length) } :=
  tables_relocated wbT recs8 "coa.xlsx" (by decide) (by decide)
    (by decide) (by decide)
    { displayName := "TableD", name := "TableD", ref := "A51:E56" }
    (by decide) (by decide) (by decide)
    { displayName := "TableD5", name := "TableD5", ref := "A63:E73" }
    (by decide) (by decide)

def emptySheet : Sheet := { cells := fun _ _ => defaultCell, tables := fun _ => none }

/-- The saved output of the concrete run, used by the C4 and C7 witnesses. -/
def svT : SavedOutput :=
  (runCOA wbT recs8 "coa.xlsx").toOption.getD
    { filename := "", workbook := { sheetnames := [], sheet := emptySheet } }

theorem runCOA_wbT_eq : runCOA wbT recs8 "coa.xlsx" = Except.ok svT := rfl

/-- Witness for `rows_inserted_at_row54` on the concrete run: `L = 8`, so 3
blank rows appear at 54..56 in the marker column F, row 53 stays, and row 60
holds what row 57 held in the template. -/
theorem rows_inserted_at_row54_witness :
    svT.workbook.sheet.cells 53 6 = wbT.sheet.cells 53 6
    ∧ svT.workbook.sheet.cells 54 6 = defaultCell
    ∧ svT.workbook.sheet.cells 60 6 = wbT.sheet.cells (60 - (recs8.length - 5)) 6 :=
  ⟨(rows_inserted_at_row54 wbT recs8 "coa.xlsx" svT (by decide) runCOA_wbT_eq
      53 6 (by decide)).1 (by decide),
   (rows_inserted_at_row54 wbT recs8 "coa.xlsx" svT (by decide) runCOA_wbT_eq
      54 6 (by decide)).2.1 (by decide) (by decide),
   (rows_inserted_at_row54 wbT recs8 "coa.xlsx" svT (by decide) runCOA_wbT_eq
      60 6 (by decide)).2.2 (by decide)⟩

/-- Witness for `double_run_fails_check` on the concrete run. -/
theorem double_run_fails_check_witness :
    check_is_template svT.workbook =
      Except.error "The first row of the table 4 is not the template person"
    ∧ ∀ (records2 : List Record) (out2 : String),
        runCOA svT.workbook records2 out2 =
          Except.error "The first row of the table 4 is not the template person" :=
  double_run_fails_check wbT recs8 "coa.xlsx" svT (by decide) runCOA_wbT_eq
    (fun rec h => by
      rw [show recs8.head? =
        some (⟨"Doe, Jane", "Inst One", "2020/01/02"⟩ : Record) from rfl] at h
      injection h with h
      rw [← h]
      decide)

end Ads2coa
